import Mathlib

/-!
Shallow embedding of the artisansghana backend (Express + Drizzle/PostgreSQL).

The durable tables (`products`, `cart_items`, `orders`, `order_items`) are
modelled as Lean lists of rows; SQL decimal columns (price, total) are
modelled as exact rationals; SQL `SELECT ... WHERE` destructured to its
first row (`const [x] = await db.select()...`) is `List.find?`;
`UPDATE ... WHERE` is a `List.map` that rewrites the matching rows;
`INSERT` appends; `DELETE ... WHERE` is a `List.filter` keeping the
non-matching rows.  Route handlers from `src/server/routes.ts` become
functions from the relevant table states and request data to a result
(body or error) plus the updated table states.
-/

namespace ArtisansGhana

/-- A row of the `products` table (shared/schema.ts, pgTable "products"). -/
structure Product where
  id : String
  name : String
  description : String
  price : ℚ
  stock : Int
  category : String
  imageUrl : Option String
  sellerId : String
  isActive : Bool
  createdAt : Nat
deriving DecidableEq, Repr

/-- A row of the `cart_items` table (shared/schema.ts, pgTable "cart_items"). -/
structure CartItem where
  id : String
  userId : String
  productId : String
  quantity : Int
  createdAt : Nat
deriving DecidableEq, Repr

/-- The insert shape accepted by `addToCart` (insertCartItemSchema: a cart
item without `id` and `createdAt`, which the database generates). -/
structure InsertCartItem where
  userId : String
  productId : String
  quantity : Int
deriving DecidableEq, Repr

/-- `DatabaseStorage.getProduct` (storage.ts:108-111):
`select from products where id = id`, first row or undefined. -/
def getProduct (catalog : List Product) (id : String) : Option Product :=
  catalog.find? (fun p => p.id == id)

/-- `orderBy(desc(products.createdAt))`: sort rows most-recent-first. -/
def orderByCreatedAtDesc (ps : List Product) : List Product :=
  List.insertionSort (fun a b => b.createdAt ≤ a.createdAt) ps

/-- `DatabaseStorage.getAllProducts` (storage.ts:117-119):
`select from products where isActive = true orderBy desc createdAt`. -/
def getAllProducts (catalog : List Product) : List Product :=
  orderByCreatedAtDesc (catalog.filter (fun p => p.isActive))

/-- Postgres `LIKE '%query%'` on a text column: substring containment. -/
def likeContains (hay pat : String) : Bool :=
  decide (pat.toList <:+: hay.toList)

/-- `DatabaseStorage.searchProducts` (storage.ts:121-135): starts from the
`isActive = true` clause; conjoins a `LIKE %query%` filter when
`query && query.trim()` is truthy, and an exact category match when
`category && category.trim()` is truthy; same ordering as `getAllProducts`. -/
def searchProducts (catalog : List Product) (query : String) (category : Option String) :
    List Product :=
  let w1 : Product → Bool := fun p => p.isActive
  let w2 : Product → Bool :=
    if query != "" && query.trim != "" then
      fun p => w1 p && likeContains p.name query
    else w1
  let w3 : Product → Bool :=
    match category with
    | some c => if c != "" && c.trim != "" then (fun p => w2 p && p.category == c) else w2
    | none => w2
  orderByCreatedAtDesc (catalog.filter w3)

/-- `DatabaseStorage.addToCart` (storage.ts:157-173): select the first
existing row with the same (userId, productId); if found, update that row's
quantity to `existing.quantity + item.quantity`; otherwise insert a new row
(with a database-generated id and creation timestamp). -/
def addToCart (table : List CartItem) (item : InsertCartItem) (freshId : String) (now : Nat) :
    List CartItem :=
  match table.find? (fun c => c.userId == item.userId && c.productId == item.productId) with
  | some existing =>
      table.map (fun c =>
        if c.id == existing.id then { c with quantity := existing.quantity + item.quantity }
        else c)
  | none =>
      table ++ [{ id := freshId, userId := item.userId, productId := item.productId,
                  quantity := item.quantity, createdAt := now }]

/-- `DatabaseStorage.updateCartItem` (storage.ts:175-178):
`update cart_items set quantity where id = id`, returning the updated row
(or none when no row matched).  Unconditional: sets any quantity. -/
def updateCartItem (table : List CartItem) (id : String) (quantity : Int) :
    List CartItem × Option CartItem :=
  let updated := table.map (fun c => if c.id == id then { c with quantity := quantity } else c)
  (updated, updated.find? (fun c => c.id == id))

/-- `DatabaseStorage.removeFromCart` (storage.ts:180-183):
`delete from cart_items where id = id`. -/
def removeFromCart (table : List CartItem) (id : String) : List CartItem :=
  table.filter (fun c => !(c.id == id))

/-- `DatabaseStorage.clearCart` (storage.ts:185-188):
`delete from cart_items where userId = userId`. -/
def clearCart (table : List CartItem) (userId : String) : List CartItem :=
  table.filter (fun c => !(c.userId == userId))

/-- A request line of `POST /api/orders` (`req.body.items`): the handler
reads only `productId` and `quantity`; a client may also send a `price`
field, which the handler never reads. -/
structure OrderReqItem where
  productId : String
  quantity : Int
  price : Option ℚ
deriving DecidableEq, Repr

/-- A row of the `orders` table (shared/schema.ts, pgTable "orders"). -/
structure OrderRow where
  id : String
  userId : String
  total : ℚ
  status : String
  shippingAddress : String
deriving DecidableEq, Repr

/-- A row of the `order_items` table (shared/schema.ts, pgTable
"order_items"); the generated primary key is not read anywhere and is
omitted here. -/
structure OrderItemRow where
  orderId : String
  productId : String
  quantity : Int
  price : ℚ
deriving DecidableEq, Repr

/-- The two order tables written inside `createOrder`'s transaction. -/
structure OrdersState where
  orders : List OrderRow
  orderItems : List OrderItemRow
deriving DecidableEq, Repr

/-- The insert shape passed to `createOrder` (orderData in routes.ts:222-227). -/
structure InsertOrder where
  userId : String
  total : ℚ
  status : String
  shippingAddress : String
deriving DecidableEq, Repr

/-- An element of `itemsWithPrices` (routes.ts:229-237): the request item
with its `price` field overwritten by the product's catalog price. -/
structure PricedReqItem where
  productId : String
  quantity : Int
  price : ℚ
deriving DecidableEq, Repr

/-- The first loop of the `POST /api/orders` handler (routes.ts:213-220):
`total` starts at 0; for each item the current product is fetched; a missing
product aborts with a 400 "Product ... not found"; otherwise
`total += product.price * item.quantity`. -/
def totalLoop (catalog : List Product) (acc : ℚ) : List OrderReqItem → Except String ℚ
  | [] => .ok acc
  | item :: rest =>
    match getProduct catalog item.productId with
    | none => .error ("Product " ++ item.productId ++ " not found")
    | some product => totalLoop catalog (acc + product.price * (item.quantity : ℚ)) rest

/-- `itemsWithPrices` (routes.ts:229-237): each request item is re-fetched
and spread with `price: product!.price`.  A product missing at this point
makes the non-null assertion throw, which the handler's catch turns into a
400 "Failed to create order". -/
def itemsWithPrices (catalog : List Product) : List OrderReqItem → Except String (List PricedReqItem)
  | [] => .ok []
  | item :: rest =>
    match getProduct catalog item.productId with
    | none => .error "Failed to create order"
    | some product =>
      match itemsWithPrices catalog rest with
      | .error e => .error e
      | .ok ps =>
        .ok ({ productId := item.productId, quantity := item.quantity,
               price := product.price } :: ps)

/-- `DatabaseStorage.createOrder` (storage.ts:212-227): one transaction that
inserts the order row and then one `order_items` row per line with the
snapshotted price; returns the new order. -/
def createOrder (st : OrdersState) (newOrderId : String) (order : InsertOrder)
    (items : List PricedReqItem) : OrdersState × OrderRow :=
  let newOrder : OrderRow :=
    { id := newOrderId, userId := order.userId, total := order.total,
      status := order.status, shippingAddress := order.shippingAddress }
  ({ orders := st.orders ++ [newOrder],
     orderItems := st.orderItems ++ items.map (fun i =>
       { orderId := newOrderId, productId := i.productId,
         quantity := i.quantity, price := i.price }) },
   newOrder)

/-- Outcome of `POST /api/orders`: both order tables, the cart table, and
the HTTP response (created order, or error message sent with status 400). -/
structure PostOrderResult where
  ordersState : OrdersState
  cart : List CartItem
  response : Except String OrderRow
deriving Repr

/-- The `POST /api/orders` handler (routes.ts:209-248): compute the total
from the catalog (failing on a missing product before any write), snapshot
the item prices, insert order + items in one transaction, then clear the
requesting user's cart.  On failure nothing is written. -/
def postOrderHandler (catalog : List Product) (st : OrdersState) (cart : List CartItem)
    (userId : String) (shippingAddress : String) (items : List OrderReqItem)
    (newOrderId : String) : PostOrderResult :=
  match totalLoop catalog 0 items with
  | .error e => { ordersState := st, cart := cart, response := .error e }
  | .ok total =>
    match itemsWithPrices catalog items with
    | .error e => { ordersState := st, cart := cart, response := .error e }
    | .ok priced =>
      let orderData : InsertOrder :=
        { userId := userId, total := total, status := "pending",
          shippingAddress := shippingAddress }
      let res := createOrder st newOrderId orderData priced
      { ordersState := res.1, cart := clearCart cart userId, response := .ok res.2 }

/-- The quantity × current-catalog-price value of one request line (the
quantity-weighted price the spec's Σ ranges over). -/
def lineTotal (catalog : List Product) (item : OrderReqItem) : ℚ :=
  match getProduct catalog item.productId with
  | some p => p.price * (item.quantity : ℚ)
  | none => 0

/-- The fields of a request line the handler actually reads (everything
except the client-supplied price field). -/
def stripClientPrice (item : OrderReqItem) : String × Int :=
  (item.productId, item.quantity)

/-- `requireRole` middleware (routes.ts:35-42): passes iff a user is
authenticated and the user's role is in the allowed-roles list; otherwise
responds 403. -/
def requireRole (roles : List String) (userRole : Option String) : Bool :=
  match userRole with
  | none => false
  | some r => roles.contains r

/-- Allowed roles of `GET /api/seller/products` (routes.ts:404). -/
def sellerProductsRoles : List String := ["seller"]

/-- Allowed roles of `GET /api/seller/orders` (routes.ts:413). -/
def sellerOrdersRoles : List String := ["seller"]

/-- Allowed roles of `POST /api/products` (routes.ts:90). -/
def productCreateRoles : List String := ["seller", "admin"]

/-- Allowed roles of `POST /api/projects` (routes.ts:283). -/
def projectCreateRoles : List String := ["client", "admin"]

/-- Allowed roles of `GET /api/admin/stats` (routes.ts:384). -/
def adminStatsRoles : List String := ["admin"]

/-- The milestone fields read by `getProjectProgress`
(client Milestone objects; only `status` is inspected). -/
structure Milestone where
  id : String
  projectId : String
  title : String
  status : String
deriving DecidableEq, Repr

/-- `getProjectProgress` (project-dashboard.tsx:316-322): 0 when there are
no milestones, else `Math.round((completed / total) * 100)` where
`completed` counts milestones with status "completed".  JavaScript numbers
are modelled as exact rationals; `Math.round` (half toward +infinity) is
Mathlib's `round`. -/
def getProjectProgress (ms : List Milestone) : Int :=
  if ms.length = 0 then 0
  else
    round ((((ms.filter (fun m => m.status == "completed")).length : ℚ) / (ms.length : ℚ)) * 100)

/-- The `GET /api/products/:id` handler (routes.ts:78-88): no auth
middleware; looks the product up by id only and returns it, or 404.  The
(possibly absent) principal is a parameter the handler never consults. -/
def getProductHandler (catalog : List Product) (principal : Option (String × String))
    (id : String) : Except Nat Product :=
  match getProduct catalog id with
  | none => .error 404
  | some p => .ok p

/-! ## Helper lemmas -/

lemma find?_of_filter_eq_single {α} (p : α → Bool) :
    ∀ (l : List α) (a : α), l.filter p = [a] → l.find? p = some a := by
  intro l
  induction l with
  | nil => intro a h; simp at h
  | cons x xs ih =>
    intro a h
    rw [List.filter_cons] at h
    by_cases hx : p x
    · rw [if_pos hx] at h
      have h1 : x = a := (List.cons_eq_cons.mp h).1
      subst h1
      simp [List.find?_cons, hx]
    · rw [if_neg hx] at h
      have hx2 : p x = false := Bool.eq_false_iff.mpr hx
      simp [List.find?_cons, hx2]
      exact ih a h

lemma find?_id_eq_of_pairwise (catalog : List Product) (p : Product)
    (hnodup : catalog.Pairwise (fun a b => a.id ≠ b.id)) (hmem : p ∈ catalog) :
    catalog.find? (fun q => q.id == p.id) = some p := by
  induction catalog with
  | nil => cases hmem
  | cons a l ih =>
    rcases List.mem_cons.mp hmem with rfl | hmem2
    · simp [List.find?_cons]
    · have ha : a.id ≠ p.id := (List.pairwise_cons.mp hnodup).1 p hmem2
      have hbeq : (a.id == p.id) = false := by simpa using ha
      simp only [List.find?_cons, hbeq]
      exact ih (List.pairwise_cons.mp hnodup).2 hmem2

/-! ## Claim theorems -/

/-- C8: for every catalog state, searching with an empty query and no
category returns exactly the same list of products, in the same order, as
listing all active products: searchProducts catalog "" none =
getAllProducts catalog. -/
theorem searchProducts_empty_eq_getAllProducts (catalog : List Product) :
    searchProducts catalog "" none = getAllProducts catalog := by
  simp [searchProducts, getAllProducts]

/-- C9: the computed completion percentage is 0 for an empty milestone
list, 100 when every milestone has status "completed" (non-empty list), and
round(100 × completedCount / totalCount) otherwise; the division is guarded
by the emptiness check, so no division by zero occurs. -/
theorem getProjectProgress_spec (ms : List Milestone) :
    (ms = [] → getProjectProgress ms = 0) ∧
    ((∀ m ∈ ms, m.status = "completed") → ms ≠ [] → getProjectProgress ms = 100) ∧
    (ms ≠ [] → getProjectProgress ms =
      round ((100 : ℚ) * ((ms.filter (fun m => m.status == "completed")).length : ℚ)
        / (ms.length : ℚ))) := by
  refine ⟨?_, ?_, ?_⟩
  · intro h; subst h; simp [getProjectProgress]
  · intro hall hne
    have hlen : ms.length ≠ 0 := by simpa [List.length_eq_zero] using hne
    have hfilter : ms.filter (fun m => m.status == "completed") = ms :=
      List.filter_eq_self.mpr (fun m hm => by simpa using hall m hm)
    rw [getProjectProgress, if_neg hlen, hfilter]
    have hq : ((ms.length : ℚ)) ≠ 0 := by exact_mod_cast hlen
    rw [div_self hq]
    norm_num
  · intro hne
    have hlen : ms.length ≠ 0 := by simpa [List.length_eq_zero] using hne
    rw [getProjectProgress, if_neg hlen]
    congr 1
    ring

theorem getProjectProgress_spec_witness :
    getProjectProgress [⟨"m1", "p1", "t1", "completed"⟩] = 100 :=
  (getProjectProgress_spec [⟨"m1", "p1", "t1", "completed"⟩]).2.1 (by decide) (by decide)

/-- C7 counterexample: `GET /api/seller/products` admits the role "seller",
yet an authenticated admin fails its `requireRole` check (routes.ts:404 uses
requireRole(["seller"]) with no implicit admin pass). -/
theorem admin_denied_on_seller_routes :
    requireRole sellerProductsRoles (some "seller") = true ∧
    requireRole sellerProductsRoles (some "admin") = false ∧
    requireRole sellerOrdersRoles (some "admin") = false := by
  decide

/-- C7 amended: `requireRole` admits exactly the roles in the endpoint's
allowed-roles list — an authenticated admin passes a role-list check iff
"admin" is itself in the list (as it is for the product and project
mutation routes, but not for the seller-only routes). -/
theorem requireRole_admin_iff (roles : List String) :
    requireRole roles (some "admin") = true ↔ "admin" ∈ roles := by
  simp [requireRole]

theorem requireRole_admin_iff_witness :
    requireRole productCreateRoles (some "admin") = true :=
  (requireRole_admin_iff productCreateRoles).mpr (by decide)

/-- C10: `GET /api/products/:id` has no auth middleware and looks products
up by id only: when the catalog's ids are unique, any existing product —
active or not — is returned to any principal, and the response does not
depend on the principal at all. -/
theorem getProduct_ignores_isActive_and_principal (catalog : List Product) (p : Product)
    (pr pr2 : Option (String × String))
    (hnodup : catalog.Pairwise (fun a b => a.id ≠ b.id)) (hmem : p ∈ catalog) :
    getProductHandler catalog pr p.id = .ok p ∧
    getProductHandler catalog pr p.id = getProductHandler catalog pr2 p.id := by
  have h := find?_id_eq_of_pairwise catalog p hnodup hmem
  constructor
  · rw [getProductHandler, getProduct, h]
  · rfl

/-- An inactive product used to witness C10. -/
def inactiveProduct : Product :=
  { id := "pX", name := "Hidden", description := "", price := 5, stock := 3,
    category := "tools", imageUrl := none, sellerId := "s2", isActive := false, createdAt := 7 }

theorem getProduct_ignores_isActive_and_principal_witness :
    getProductHandler [inactiveProduct] none "pX" = .ok inactiveProduct ∧
    getProductHandler [inactiveProduct] none "pX" =
      getProductHandler [inactiveProduct] (some ("u9", "buyer")) "pX" :=
  getProduct_ignores_isActive_and_principal [inactiveProduct] inactiveProduct
    none (some ("u9", "buyer")) (by simp) (by simp)

/-- A one-row cart table used for C4. -/
def c4Table : List CartItem :=
  [{ id := "c1", userId := "u1", productId := "p1", quantity := 2, createdAt := 1 }]

/-- C4 counterexample: `updateCartItem` with quantity 0 does not remove the
cart item — the row is persisted with quantity 0. -/
theorem updateCartItem_persists_nonpositive_quantity :
    (updateCartItem c4Table "c1" 0).1 =
      [{ id := "c1", userId := "u1", productId := "p1", quantity := 0, createdAt := 1 }] ∧
    (updateCartItem c4Table "c1" 0).1 ≠ [] := by
  constructor <;> decide

/-- C4 amended: `updateCartItem` (PUT /api/cart/:id) sets the matching cart
item's quantity to exactly the supplied value for every quantity, including
q ≤ 0 (replacement, not increment); it never removes a row, so a
non-positive quantity is persisted and the table's length is unchanged. -/
theorem updateCartItem_replaces_quantity (table : List CartItem) (id : String) (q : Int)
    (c : CartItem) (hc : c ∈ (updateCartItem table id q).1) (hid : c.id = id) :
    (updateCartItem table id q).1.length = table.length ∧ c.quantity = q := by
  constructor
  · simp [updateCartItem]
  · simp only [updateCartItem] at hc
    rcases List.mem_map.mp hc with ⟨c0, _, heq⟩
    by_cases h : c0.id == id
    · rw [if_pos h] at heq
      rw [← heq]
    · rw [if_neg h] at heq
      subst heq
      exact absurd hid (by simpa using h)

theorem updateCartItem_replaces_quantity_witness :
    (updateCartItem c4Table "c1" 0).1.length = c4Table.length ∧
    (CartItem.mk "c1" "u1" "p1" 0 1).quantity = 0 :=
  updateCartItem_replaces_quantity c4Table "c1" 0 ⟨"c1", "u1", "p1", 0, 1⟩ (by decide) rfl

/-! ## Order-flow lemmas -/

lemma totalLoop_ok_eq (catalog : List Product) :
    ∀ (items : List OrderReqItem) (acc t : ℚ),
      totalLoop catalog acc items = .ok t →
      t = acc + (items.map (lineTotal catalog)).sum := by
  intro items
  induction items with
  | nil =>
    intro acc t h
    simp only [totalLoop, Except.ok.injEq] at h
    simp [← h]
  | cons item rest ih =>
    intro acc t h
    cases hp : getProduct catalog item.productId with
    | none => simp [totalLoop, hp] at h
    | some p =>
      simp only [totalLoop, hp] at h
      have ht := ih _ _ h
      rw [ht, List.map_cons, List.sum_cons, lineTotal, hp]
      ring

lemma totalLoop_missing_err (catalog : List Product) :
    ∀ (items : List OrderReqItem) (acc : ℚ),
      (∃ item ∈ items, getProduct catalog item.productId = none) →
      ∃ e, totalLoop catalog acc items = .error e := by
  intro items
  induction items with
  | nil => rintro acc ⟨item, hmem, _⟩; cases hmem
  | cons a l ih =>
    rintro acc ⟨item, hmem, hnone⟩
    rcases List.mem_cons.mp hmem with rfl | hmem2
    · exact ⟨"Product " ++ item.productId ++ " not found", by simp [totalLoop, hnone]⟩
    · cases hp : getProduct catalog a.productId with
      | none => exact ⟨"Product " ++ a.productId ++ " not found", by simp [totalLoop, hp]⟩
      | some p =>
        obtain ⟨e, he⟩ := ih (acc + p.price * (a.quantity : ℚ)) ⟨item, hmem2, hnone⟩
        exact ⟨e, by simp [totalLoop, hp, he]⟩

lemma totalLoop_client_price_irrelevant (catalog : List Product) :
    ∀ (items items2 : List OrderReqItem) (acc : ℚ),
      items.map stripClientPrice = items2.map stripClientPrice →
      totalLoop catalog acc items = totalLoop catalog acc items2 := by
  intro items
  induction items with
  | nil =>
    intro items2 acc h
    rw [List.map_nil] at h
    have h2 : items2 = [] := by simpa using h.symm
    subst h2; rfl
  | cons a l ih =>
    intro items2 acc h
    cases items2 with
    | nil => simp at h
    | cons b l2 =>
      rw [List.map_cons, List.map_cons] at h
      have h1 : stripClientPrice a = stripClientPrice b := (List.cons_eq_cons.mp h).1
      have h2 : l.map stripClientPrice = l2.map stripClientPrice := (List.cons_eq_cons.mp h).2
      have hpid : a.productId = b.productId := congrArg Prod.fst h1
      have hq : a.quantity = b.quantity := congrArg Prod.snd h1
      simp only [totalLoop, hpid, hq]
      cases hp : getProduct catalog b.productId with
      | none => rfl
      | some p => exact ih l2 _ h2

lemma itemsWithPrices_client_price_irrelevant (catalog : List Product) :
    ∀ (items items2 : List OrderReqItem),
      items.map stripClientPrice = items2.map stripClientPrice →
      itemsWithPrices catalog items = itemsWithPrices catalog items2 := by
  intro items
  induction items with
  | nil =>
    intro items2 h
    rw [List.map_nil] at h
    have h2 : items2 = [] := by simpa using h.symm
    subst h2; rfl
  | cons a l ih =>
    intro items2 h
    cases items2 with
    | nil => simp at h
    | cons b l2 =>
      rw [List.map_cons, List.map_cons] at h
      have h1 : stripClientPrice a = stripClientPrice b := (List.cons_eq_cons.mp h).1
      have h2 : l.map stripClientPrice = l2.map stripClientPrice := (List.cons_eq_cons.mp h).2
      have hpid : a.productId = b.productId := congrArg Prod.fst h1
      have hq : a.quantity = b.quantity := congrArg Prod.snd h1
      simp only [itemsWithPrices, hpid, hq]
      rw [ih l2 h2]

lemma postOrderHandler_client_price_irrelevant (catalog : List Product) (st : OrdersState)
    (cart : List CartItem) (userId shippingAddress newOrderId : String)
    (items items2 : List OrderReqItem)
    (h : items.map stripClientPrice = items2.map stripClientPrice) :
    postOrderHandler catalog st cart userId shippingAddress items newOrderId =
      postOrderHandler catalog st cart userId shippingAddress items2 newOrderId := by
  rw [postOrderHandler, postOrderHandler,
    totalLoop_client_price_irrelevant catalog items items2 0 h,
    itemsWithPrices_client_price_irrelevant catalog items items2 h]

/-- C1: when `POST /api/orders` succeeds, the created order's total equals
Σ over the request lines of quantity × the product's current catalog price,
and the total is independent of any client-supplied price field: a request
identical except for the price fields produces an order with the same
total. -/
theorem order_total_uses_catalog_prices (catalog : List Product) (st : OrdersState)
    (cart : List CartItem) (userId shippingAddress newOrderId : String)
    (items : List OrderReqItem) (ord : OrderRow)
    (h : (postOrderHandler catalog st cart userId shippingAddress items newOrderId).response =
      .ok ord)
    (items2 : List OrderReqItem)
    (hsame : items.map stripClientPrice = items2.map stripClientPrice) :
    ord.total = (items.map (lineTotal catalog)).sum ∧
    ∃ ord2,
      (postOrderHandler catalog st cart userId shippingAddress items2 newOrderId).response =
        .ok ord2 ∧ ord2.total = ord.total := by
  constructor
  · rw [postOrderHandler] at h
    cases ht : totalLoop catalog 0 items with
    | error e => rw [ht] at h; simp at h
    | ok total =>
      rw [ht] at h
      cases hi : itemsWithPrices catalog items with
      | error e => rw [hi] at h; simp at h
      | ok priced =>
        rw [hi] at h
        simp only [createOrder, Except.ok.injEq] at h
        have htot : ord.total = total := by rw [← h]
        rw [htot, totalLoop_ok_eq catalog items 0 total ht, zero_add]
  · refine ⟨ord, ?_, rfl⟩
    rw [← postOrderHandler_client_price_irrelevant catalog st cart userId shippingAddress
      newOrderId items items2 hsame]
    exact h

/-- C3: if any requested product id does not resolve, `POST /api/orders`
fails before any write: the order tables are unchanged, the cart is
unchanged, and the response is an error (all-or-nothing). -/
theorem order_missing_product_all_or_nothing (catalog : List Product) (st : OrdersState)
    (cart : List CartItem) (userId shippingAddress newOrderId : String)
    (items : List OrderReqItem)
    (h : ∃ item ∈ items, getProduct catalog item.productId = none) :
    (postOrderHandler catalog st cart userId shippingAddress items newOrderId).ordersState = st ∧
    (postOrderHandler catalog st cart userId shippingAddress items newOrderId).cart = cart ∧
    ∃ e, (postOrderHandler catalog st cart userId shippingAddress items newOrderId).response =
      .error e := by
  obtain ⟨e, he⟩ := totalLoop_missing_err catalog items 0 h
  refine ⟨?_, ?_, ⟨e, ?_⟩⟩ <;> simp [postOrderHandler, he]

theorem order_missing_product_all_or_nothing_witness :
    (postOrderHandler [] ⟨[], []⟩ [] "u1" "addr" [⟨"p9", 1, none⟩] "o1").ordersState =
      ⟨[], []⟩ ∧
    (postOrderHandler [] ⟨[], []⟩ [] "u1" "addr" [⟨"p9", 1, none⟩] "o1").cart = [] ∧
    ∃ e, (postOrderHandler [] ⟨[], []⟩ [] "u1" "addr" [⟨"p9", 1, none⟩] "o1").response =
      .error e :=
  order_missing_product_all_or_nothing [] ⟨[], []⟩ [] "u1" "addr" "o1" [⟨"p9", 1, none⟩]
    ⟨⟨"p9", 1, none⟩, by simp, rfl⟩

/-- C6: when `POST /api/orders` succeeds, the requesting user's cart is
cleared in its entirety — afterwards the cart table holds no row for that
user. -/
theorem order_success_clears_cart (catalog : List Product) (st : OrdersState)
    (cart : List CartItem) (userId shippingAddress newOrderId : String)
    (items : List OrderReqItem) (ord : OrderRow)
    (h : (postOrderHandler catalog st cart userId shippingAddress items newOrderId).response =
      .ok ord) :
    (postOrderHandler catalog st cart userId shippingAddress items newOrderId).cart.filter
      (fun c => c.userId == userId) = [] := by
  rw [postOrderHandler] at h ⊢
  cases ht : totalLoop catalog 0 items with
  | error e => rw [ht] at h; simp at h
  | ok total =>
    cases hi : itemsWithPrices catalog items with
    | error e => rw [ht, hi] at h; simp at h
    | ok priced => simp [clearCart, List.filter_filter]

/-! ## Concrete order-flow state: stock 1, requested quantity 2, client
price 999 ignored (price 10, so the order totals 20). -/

def demoCatalog : List Product :=
  [{ id := "p1", name := "Cement", description := "", price := 10, stock := 1,
     category := "materials", imageUrl := none, sellerId := "s1", isActive := true,
     createdAt := 1 }]

def demoCart : List CartItem :=
  [{ id := "c1", userId := "u1", productId := "p1", quantity := 2, createdAt := 1 }]

def demoItems : List OrderReqItem := [{ productId := "p1", quantity := 2, price := some 999 }]

def demoItems2 : List OrderReqItem := [{ productId := "p1", quantity := 2, price := none }]

def demoOrder : OrderRow :=
  { id := "o1", userId := "u1", total := 20, status := "pending", shippingAddress := "addr" }

lemma demo_postOrder_response :
    (postOrderHandler demoCatalog ⟨[], []⟩ demoCart "u1" "addr" demoItems "o1").response =
      .ok demoOrder := by
  simp [postOrderHandler, totalLoop, itemsWithPrices, getProduct, createOrder,
    demoCatalog, demoItems, demoOrder]
  norm_num

/-- C2 (design gap): the `POST /api/orders` handler performs no stock
check — at a catalog whose only product has stock 1, a request for
quantity 2 succeeds: the order row is created with total 20 and the cart is
cleared, where the spec requires the whole operation to fail with
InsufficientStock leaving no partial state. -/
theorem order_ignores_stock_at_failing_input :
    (postOrderHandler demoCatalog ⟨[], []⟩ demoCart "u1" "addr" demoItems "o1").response =
      .ok demoOrder ∧
    (postOrderHandler demoCatalog ⟨[], []⟩ demoCart "u1" "addr" demoItems "o1").ordersState.orders
      = [demoOrder] ∧
    (postOrderHandler demoCatalog ⟨[], []⟩ demoCart "u1" "addr" demoItems "o1").cart = [] ∧
    (getProduct demoCatalog "p1").map Product.stock = some 1 ∧
    demoItems.map OrderReqItem.quantity = [2] := by
  refine ⟨demo_postOrder_response, ?_, ?_, ?_, ?_⟩ <;>
    simp [postOrderHandler, totalLoop, itemsWithPrices, getProduct, createOrder, clearCart,
      demoCatalog, demoCart, demoItems, demoOrder] <;> norm_num

theorem order_total_uses_catalog_prices_witness :
    demoOrder.total = (demoItems.map (lineTotal demoCatalog)).sum ∧
    ∃ ord2,
      (postOrderHandler demoCatalog ⟨[], []⟩ demoCart "u1" "addr" demoItems2 "o1").response =
        .ok ord2 ∧ ord2.total = demoOrder.total :=
  order_total_uses_catalog_prices demoCatalog ⟨[], []⟩ demoCart "u1" "addr" "o1" demoItems
    demoOrder demo_postOrder_response demoItems2 rfl

theorem order_success_clears_cart_witness :
    (postOrderHandler demoCatalog ⟨[], []⟩ demoCart "u1" "addr" demoItems "o1").cart.filter
      (fun c => c.userId == "u1") = [] :=
  order_success_clears_cart demoCatalog ⟨[], []⟩ demoCart "u1" "addr" "o1" demoItems demoOrder
    demo_postOrder_response

/-! ## Cart merge invariant (C5) -/

/-- A sequence of `addToCart` calls for the same (userId, productId): each
element of `adds` carries the added quantity together with the fresh row id
and creation timestamp the database would generate for an insert. -/
def addMany (uid pid : String) : List (Int × String × Nat) → List CartItem → List CartItem
  | [], table => table
  | (q, fid, now) :: rest, table =>
      addMany uid pid rest
        (addToCart table { userId := uid, productId := pid, quantity := q } fid now)

lemma filter_addToCart_found (table : List CartItem) (uid pid : String) (q : Int)
    (fid : String) (now : Nat) (it : CartItem)
    (h : table.filter (fun c => c.userId == uid && c.productId == pid) = [it]) :
    (addToCart table ⟨uid, pid, q⟩ fid now).filter
        (fun c => c.userId == uid && c.productId == pid)
      = [{ it with quantity := it.quantity + q }] := by
  have hfind := find?_of_filter_eq_single (fun c => c.userId == uid && c.productId == pid)
    table it h
  simp only [addToCart, hfind]
  rw [List.filter_map]
  have hcong : table.filter ((fun c => c.userId == uid && c.productId == pid) ∘
      (fun c => if c.id == it.id then { c with quantity := it.quantity + q } else c))
      = table.filter (fun c => c.userId == uid && c.productId == pid) := by
    apply List.filter_congr
    intro c hc
    by_cases h2 : c.id == it.id <;> simp [Function.comp, h2]
  rw [hcong, h]
  simp

lemma addMany_filter (uid pid : String) :
    ∀ (adds : List (Int × String × Nat)) (table : List CartItem) (it : CartItem),
      table.filter (fun c => c.userId == uid && c.productId == pid) = [it] →
      (addMany uid pid adds table).filter (fun c => c.userId == uid && c.productId == pid)
        = [{ it with quantity := it.quantity + (adds.map (fun a => a.1)).sum }] := by
  intro adds
  induction adds with
  | nil =>
    intro table it h
    simpa [addMany] using h
  | cons a rest ih =>
    obtain ⟨q, fid, now⟩ := a
    intro table it h
    rw [addMany]
    have hstep := filter_addToCart_found table uid pid q fid now it h
    have hrec := ih _ _ hstep
    rw [hrec]
    simp [add_assoc]

/-- C5: starting from a cart with no row for (userId, productId), any
non-empty sequence of `addToCart` calls for that pair with positive
quantities leaves exactly one cart row for the pair, whose quantity is the
sum of all added quantities (merge, never duplicate). -/
theorem cart_add_merge_invariant (table : List CartItem) (uid pid : String)
    (adds : List (Int × String × Nat))
    (hnone : table.filter (fun c => c.userId == uid && c.productId == pid) = [])
    (hne : adds ≠ [])
    (hpos : ∀ a ∈ adds, 0 < a.1) :
    ∃ c, (addMany uid pid adds table).filter
        (fun cc => cc.userId == uid && cc.productId == pid) = [c]
      ∧ c.userId = uid ∧ c.productId = pid
      ∧ c.quantity = (adds.map (fun a => a.1)).sum := by
  obtain ⟨a, rest, rfl⟩ := List.exists_cons_of_ne_nil hne
  obtain ⟨q, fid, now⟩ := a
  have hfind : table.find? (fun c => c.userId == uid && c.productId == pid) = none :=
    List.find?_eq_none.mpr (fun x hx => List.filter_eq_nil_iff.mp hnone x hx)
  rw [addMany]
  have hstep : addToCart table ⟨uid, pid, q⟩ fid now
      = table ++ [{ id := fid, userId := uid, productId := pid, quantity := q,
                    createdAt := now }] := by
    simp only [addToCart, hfind]
  rw [hstep]
  have hfil : (table ++ [(⟨fid, uid, pid, q, now⟩ : CartItem)]).filter
      (fun c => c.userId == uid && c.productId == pid) = [⟨fid, uid, pid, q, now⟩] := by
    rw [List.filter_append, hnone]
    simp
  have hfinal := addMany_filter uid pid rest _ _ hfil
  refine ⟨_, hfinal, rfl, rfl, ?_⟩
  simp

theorem cart_add_merge_invariant_witness :
    ∃ c, (addMany "u1" "p1" [(2, "i1", 0), (3, "i2", 1)] []).filter
        (fun cc => cc.userId == "u1" && cc.productId == "p1") = [c]
      ∧ c.userId = "u1" ∧ c.productId = "p1"
      ∧ c.quantity = (([(2, "i1", 0), (3, "i2", 1)] : List (Int × String × Nat)).map
          (fun a => a.1)).sum :=
  cart_add_merge_invariant [] "u1" "p1" [(2, "i1", 0), (3, "i2", 1)] rfl (by decide) (by decide)

end ArtisansGhana
